import Mathlib

/-!
Shallow embedding of the Trinity tool registry (src/src/Tools.ts) and proofs
about its specification claims.

The file embeds the flag-gated cache variant of the Tools class (the first
variant in Tools.ts): the fields toolCache, toolPathMap and cacheValid, the
operations loadTools, loadTool, loadToolFromFile, onFileChange, startWatching
and stopWatching, plus the always-rescan variant of loadTools cited by the
spec. JavaScript module exports are modelled by an explicit JSValue type so
that the truthiness and typeof checks of loadToolFromFile are translated
exactly as written in the source.
-/

set_option linter.unusedVariables false

deriving instance DecidableEq for Except

/-- Model of a JavaScript runtime value, rich enough for the export checks in
Tools.loadToolFromFile: truthiness and the typeof operator distinguish exactly
the cases the source code branches on. Opaque objects and functions carry a
numeric identity so that distinct loaded instances can be told apart. -/
inductive JSValue where
  | undefined
  | null
  | bool (b : Bool)
  | num (n : Int)
  | str (s : String)
  | obj (id : Nat)
  | fn (id : Nat)
deriving DecidableEq, Repr

/-- JavaScript truthiness, as used by the negation checks in Tools.ts lines
152, 158 and 164: undefined, null, false, 0 and the empty string are falsy. -/
def truthy : JSValue → Bool
  | .undefined => false
  | .null => false
  | .bool b => b
  | .num n => n != 0
  | .str s => s != ""
  | .obj _ => true
  | .fn _ => true

/-- The JavaScript typeof operator on the modelled values. -/
def typeOf : JSValue → String
  | .undefined => "undefined"
  | .null => "object"
  | .bool _ => "boolean"
  | .num _ => "number"
  | .str _ => "string"
  | .obj _ => "object"
  | .fn _ => "function"

/-- Extract the payload of a string value; only used under a guard that the
value is a nonempty string. -/
def jsAsString : JSValue → String
  | .str s => s
  | _ => ""

/-- The exported bindings of a dynamically imported tool module: the
description, inputSchema and default exports read by loadToolFromFile. An
export that the module does not provide is modelled as JSValue.undefined. -/
structure ModuleExports where
  description : JSValue
  inputSchema : JSValue
  defaultExport : JSValue
deriving DecidableEq, Repr

/-- ToolDefinition as in Tools.ts lines 8 to 13. The inputSchema is passed
through untouched and the execute function is kept as the opaque default
export value. -/
structure ToolDefinition where
  name : String
  description : String
  inputSchema : JSValue
  execute : JSValue
deriving DecidableEq, Repr

/-- The distinct throw sites of Tools.ts: the not-found throw of loadTool
(line 93), the three invalid-unit throws of loadToolFromFile (lines 152 to
168) and an import failure rethrown by dynamicImport (line 193). Each
constructor carries the message or name from the source. -/
inductive LoadErr where
  | notFound (name : String)
  | invalidUnit (msg : String)
  | importFailure (msg : String)
deriving DecidableEq, Repr

/-- Association-list model of a JavaScript Map: insertion order is preserved
and set replaces an existing key in place, as the ECMAScript Map does. -/
def mapGet {α : Type} (m : List (String × α)) (k : String) : Option α :=
  (m.find? (fun e => e.1 == k)).map (fun e => e.2)

/-- Map.set: overwrite the entry in place when the key is present, append
otherwise. -/
def mapSet {α : Type} (m : List (String × α)) (k : String) (v : α) : List (String × α) :=
  if (m.find? (fun e => e.1 == k)).isSome then
    m.map (fun e => if e.1 == k then (k, v) else e)
  else
    m ++ [(k, v)]

/-- Map.values as a list, in map order. -/
def mapValues {α : Type} (m : List (String × α)) : List α :=
  m.map (fun e => e.2)

/-- Last index of a character in a character list, if any. -/
def lastIdxOf (c : Char) : List Char → Option Nat
  | [] => none
  | x :: xs =>
    match lastIdxOf c xs with
    | some i => some (i + 1)
    | none => if x = c then some 0 else none

/-- The characters after the last path separator: the file name component. -/
def lastComponent (cs : List Char) : List Char :=
  cs.foldl (fun acc c => if c = '/' then [] else acc ++ [c]) []

/-- path.basename of a file path with its extension stripped, as computed by
Tools.ts line 150: the last slash-separated component, with everything from
its last dot removed unless that dot is its first character. -/
def baseName (p : String) : String :=
  let cs := lastComponent p.toList
  match lastIdxOf '.' cs with
  | some i => if i = 0 then String.mk cs else String.mk (cs.take i)
  | none => String.mk cs

/-- The filesystem as seen by one scan: the matching file paths in scan order,
each with the outcome of dynamically importing it (an import failure message,
or the module exports). -/
structure FileSys where
  entries : List (String × Except String ModuleExports)
deriving DecidableEq, Repr

/-- resolveToolFiles (Tools.ts lines 137 to 146): the glob scan yields the
matching paths in scan order. -/
def resolveToolFiles (fsys : FileSys) : List String :=
  fsys.entries.map (fun e => e.1)

/-- dynamicImport of a path against a filesystem snapshot: a path absent from
the snapshot fails to import; otherwise the recorded outcome is returned.
An import error is wrapped as an importFailure, matching the rethrow in
Tools.ts lines 181 to 195. -/
def importMod (fsys : FileSys) (p : String) : Except LoadErr ModuleExports :=
  match mapGet fsys.entries p with
  | some (.ok m) => .ok m
  | some (.error e) => .error (.importFailure e)
  | none => .error (.importFailure ("Cannot find module " ++ p))

/-- buildDescription (Tools.ts lines 197 to 205): the final description is the
module description, a blank line, a separator, the source path, and a fixed
hot-reload note, joined by newlines. -/
def buildDescription (description filePath : String) : String :=
  String.intercalate "\n"
    [description, "", "---", "Source: " ++ filePath,
     "Note: This tool is dynamically loaded. Changes to this file will immediately affect this tool behavior. You can read and modify this file to change the tool."]

/-- loadToolFromFile (Tools.ts lines 148 to 179), pure part: import the
module, then check in order that description is truthy and of typeof string,
that inputSchema is truthy and of typeof object, and that the default export
is truthy and of typeof function; on success build the ToolDefinition named by
the file base name. The path-map update of line 171 is threaded separately. -/
def loadToolFromFilePure (fsys : FileSys) (filePath : String) :
    Except LoadErr ToolDefinition :=
  match importMod fsys filePath with
  | .error e => .error e
  | .ok mod =>
    if !(truthy mod.description && (typeOf mod.description == "string")) then
      .error (.invalidUnit ("Tool file " ++ filePath ++ " must export a description string"))
    else if !(truthy mod.inputSchema && (typeOf mod.inputSchema == "object")) then
      .error (.invalidUnit ("Tool file " ++ filePath ++ " must export an inputSchema object"))
    else if !(truthy mod.defaultExport && (typeOf mod.defaultExport == "function")) then
      .error (.invalidUnit ("Tool file " ++ filePath ++ " must have a default export function"))
    else
      .ok { name := baseName filePath,
            description := buildDescription (jsAsString mod.description) filePath,
            inputSchema := mod.inputSchema,
            execute := mod.defaultExport }

/-- The mutable private state of the Tools class (Tools.ts lines 28 to 30):
the name-keyed tool cache, the name-to-path index, and the validity flag. -/
structure ToolsState where
  toolCache : List (String × ToolDefinition)
  toolPathMap : List (String × String)
  cacheValid : Bool
deriving DecidableEq, Repr

/-- The state of a freshly constructed Tools instance: empty maps, invalid
cache. -/
def initState : ToolsState :=
  { toolCache := [], toolPathMap := [], cacheValid := false }

/-- loadToolFromFile with its side effect on the path index (Tools.ts line
171): on success the tool name is mapped to the file path; a failed load
leaves the state untouched because the throw happens before the update. -/
def loadToolFromFile (fsys : FileSys) (s : ToolsState) (fp : String) :
    Except LoadErr ToolDefinition × ToolsState :=
  match loadToolFromFilePure fsys fp with
  | .ok t => (.ok t, { s with toolPathMap := mapSet s.toolPathMap t.name fp })
  | .error e => (.error e, s)

/-- loadTools of the flag-gated cache variant (Tools.ts lines 39 to 73),
evaluated against one filesystem snapshot. When the cache is valid and
non-empty the cached values are returned with no loader invocation. Otherwise
the files are resolved, both maps are cleared, every file is loaded with a
per-file catch that turns a failure into a skipped entry, the successes are
written into the cache, and the flag is set to true. The third component
counts loader invocations, which the scan performs once per resolved file. -/
def loadTools (fsys : FileSys) (s : ToolsState) :
    List ToolDefinition × ToolsState × Nat :=
  if s.cacheValid = true ∧ s.toolCache ≠ [] then
    (mapValues s.toolCache, s, 0)
  else
    let files := resolveToolFiles fsys
    let results := files.map (fun p => (loadToolFromFilePure fsys p).toOption)
    let tools := results.filterMap id
    let pathMap := files.foldl
      (fun pm p =>
        match loadToolFromFilePure fsys p with
        | .ok t => mapSet pm t.name p
        | .error _ => pm) []
    let cache := tools.foldl (fun c t => mapSet c t.name t) []
    (tools, { toolCache := cache, toolPathMap := pathMap, cacheValid := true },
     files.length)

/-- The body of the result walk in the always-rescan loadTools (Tools.ts
lines 267 to 276): push a fulfilled value, skip and report a rejected one. -/
def settleStep (acc : List ToolDefinition) (r : Except LoadErr ToolDefinition) :
    List ToolDefinition :=
  match r with
  | .ok t => acc ++ [t]
  | .error _ => acc

/-- loadTools of the always-rescan variant (second half of Tools.ts, lines
255 to 279): every call resolves the files, settles all loads, and walks the
settled results in order, pushing each fulfilled value and reporting each
rejected one. -/
def loadToolsRescan (fsys : FileSys) : List ToolDefinition :=
  ((resolveToolFiles fsys).map (fun p => loadToolFromFilePure fsys p)).foldl
    settleStep []

/-- The tail of loadTool shared by the path-index hit and the scan hit
(Tools.ts lines 100 to 102): load the file, then write the cache entry for
the requested name. -/
def loadToolFound (fsys : FileSys) (s : ToolsState) (name fp : String) :
    Except LoadErr ToolDefinition × ToolsState :=
  match loadToolFromFile fsys s fp with
  | (.ok t, s1) => (.ok t, { s1 with toolCache := mapSet s1.toolCache name t })
  | (.error e, s1) => (.error e, s1)

/-- loadTool below its cache-hit check (Tools.ts lines 82 to 102): consult the
path index; on a miss scan the files for one whose base name equals the
requested name, throw not-found when there is none, record the path mapping
otherwise, and finish by loading the file. -/
def loadToolUncached (fsys : FileSys) (s : ToolsState) (name : String) :
    Except LoadErr ToolDefinition × ToolsState :=
  match mapGet s.toolPathMap name with
  | some fp => loadToolFound fsys s name fp
  | none =>
    match (resolveToolFiles fsys).find? (fun f => baseName f == name) with
    | none => (.error (.notFound name), s)
    | some fp =>
      loadToolFound fsys
        { s with toolPathMap := mapSet s.toolPathMap name fp } name fp

/-- loadTool (Tools.ts lines 75 to 103): serve a valid cache hit directly,
otherwise fall through to the path-index and scan logic. -/
def loadTool (fsys : FileSys) (s : ToolsState) (name : String) :
    Except LoadErr ToolDefinition × ToolsState :=
  match s.cacheValid, mapGet s.toolCache name with
  | true, some t => (.ok t, s)
  | true, none => loadToolUncached fsys s name
  | false, _ => loadToolUncached fsys s name

/-- onFileChange (Tools.ts lines 207 to 221) for the registered callback
model. The callback is a plain call that may throw, modelled by an Except
outcome. The result is the new cacheValid flag paired with the outcome of the
onFileChange call itself: the source wraps the callback invocation in no
try-catch, so the callback outcome is the onFileChange outcome whenever the
filename matches the glob and a callback is registered. -/
def onFileChange (globMatch : String → Bool)
    (cb : Option (Unit → Except String Unit)) (cacheValid : Bool)
    (filename : String) : Bool × Except String Unit :=
  if globMatch filename then
    match cb with
    | some f => (false, f ())
    | none => (false, .ok ())
  else
    (cacheValid, .ok ())

/-- Watcher lifecycle state for startWatching and stopWatching (Tools.ts
lines 109 to 135). The field watcher models this.watcher, the handle stored
on the instance; nextId supplies a fresh identity per fs.watch call; active
is the set of operating-system watchers that have been created and not
closed, each of which keeps delivering events. -/
structure WatchState where
  watcher : Option Nat
  nextId : Nat
  active : List Nat
deriving DecidableEq, Repr

/-- The watcher state of a fresh Tools instance: no handle, no active
watcher. -/
def initWatch : WatchState :=
  { watcher := none, nextId := 0, active := [] }

/-- startWatching (Tools.ts lines 109 to 127): unconditionally create a new
fs.watch handle, store it in this.watcher, and leave any previously created
watcher running, since the source neither checks the field nor closes the old
handle. -/
def startWatching (s : WatchState) : WatchState :=
  { watcher := some s.nextId,
    nextId := s.nextId + 1,
    active := s.active ++ [s.nextId] }

/-- stopWatching (Tools.ts lines 129 to 135): when a handle is stored, close
that one watcher and null the field; otherwise do nothing. -/
def stopWatching (s : WatchState) : WatchState :=
  match s.watcher with
  | some w => { s with watcher := none, active := s.active.filter (fun x => x ≠ w) }
  | none => s

/-- A watcher event can fire exactly when some created watcher has not been
closed. -/
def eventsCanFire (s : WatchState) : Bool :=
  !s.active.isEmpty

/-- Interleaving state for the scan-versus-invalidation race of the cached
loadTools. The filesystem content is abstracted to a generation number that a
matching change increments. cacheGen records the generation of the data in
the cache, pendingGen the snapshot generation held by an in-flight loadTools
scan, and returnedGen the generation of the snapshot returned by the last
completed loadTools call. -/
structure RaceState where
  diskGen : Nat
  cacheValid : Bool
  cacheGen : Option Nat
  pendingGen : Option Nat
  returnedGen : Option Nat
deriving DecidableEq, Repr

/-- The suspension-point events of one cached loadTools call racing the
watcher, linearized at the await boundaries of Tools.ts. -/
inductive RaceEv where
  | scanStart
  | fsChange
  | scanFinish
deriving DecidableEq, Repr

/-- One cooperative step. scanStart is loadTools entering its scan (lines 46
to 63): it captures the current disk generation as its snapshot. fsChange is
a matching filesystem event handled by onFileChange (line 216): the disk
generation advances and cacheValid is set to false. scanFinish is the tail of
loadTools (lines 67 to 72): it fills the cache from the captured snapshot,
sets cacheValid to true unconditionally, and returns the snapshot. -/
def raceStep (s : RaceState) (e : RaceEv) : RaceState :=
  match e with
  | .scanStart =>
    match s.pendingGen with
    | none => { s with pendingGen := some s.diskGen }
    | some _ => s
  | .fsChange =>
    { s with diskGen := s.diskGen + 1, cacheValid := false }
  | .scanFinish =>
    match s.pendingGen with
    | some g =>
      { s with cacheValid := true, cacheGen := some g,
               pendingGen := none, returnedGen := some g }
    | none => s

/-- Run a schedule of cooperative steps. -/
def raceRun (evs : List RaceEv) (s : RaceState) : RaceState :=
  evs.foldl raceStep s

/-- The initial race state: disk at generation zero, cache invalid and
empty, nothing in flight. -/
def raceInit : RaceState :=
  { diskGen := 0, cacheValid := false, cacheGen := none,
    pendingGen := none, returnedGen := none }

/-- The import key built by dynamicImport (Tools.ts line 186): the path
decorated with the current Date.now() millisecond timestamp. -/
def importKey (filePath : String) (now : Nat) : String :=
  filePath ++ "?t=" ++ toString now

/-- The ECMAScript dynamic import against the runtime module registry, as
invoked by dynamicImport: the registry caches modules by specifier, so a key
already present is served from memory without re-executing the file, and a
fresh key evaluates the current on-disk content and records it. onDisk is the
module content of the file at the moment of the call. -/
def dynamicImport (registry : List (String × ModuleExports))
    (onDisk : ModuleExports) (filePath : String) (now : Nat) :
    ModuleExports × List (String × ModuleExports) :=
  let key := importKey filePath now
  match mapGet registry key with
  | some m => (m, registry)
  | none => (onDisk, registry ++ [(key, onDisk)])

/-- Refinement side of claim C4, following the claim words: a value counts
as a string export exactly when it is a string. -/
def isStringVal : JSValue → Bool
  | .str _ => true
  | _ => false

/-- Refinement side of claim C4: an object-shaped value. -/
def isObjectShaped : JSValue → Bool
  | .obj _ => true
  | _ => false

/-- Refinement side of claim C4: a callable value. -/
def isCallable : JSValue → Bool
  | .fn _ => true
  | _ => false

/-- Refinement side of claim C4, following the claim words: the load fails
exactly when the module cannot be imported, or description is missing or not
a string, or inputSchema is missing or not object-shaped, or the default
export is missing or not callable. A missing export is the undefined value,
which is neither a string, object-shaped, nor callable, so each missing-or
disjunct collapses into the shape test. -/
def specInvalidUnit (fsys : FileSys) (p : String) : Bool :=
  match importMod fsys p with
  | .error _ => true
  | .ok mod =>
    !isStringVal mod.description || !isObjectShaped mod.inputSchema
      || !isCallable mod.defaultExport

/-! Concrete fixtures used by counterexamples and witnesses. -/

/-- A single tool file whose module exports an empty description string
together with a valid schema object and a valid default function. -/
def fsEmptyDesc : FileSys :=
  ⟨[("empty.ts", .ok ⟨.str "", .obj 0, .fn 0⟩)]⟩

/-- A single tool file whose module exports no description at all. -/
def fsBad : FileSys :=
  ⟨[("bad.ts", .ok ⟨.undefined, .obj 0, .fn 0⟩)]⟩

/-- One valid tool file next to one invalid sibling. -/
def fsGoodBad : FileSys :=
  ⟨[("hello.ts", .ok ⟨.str "Says hello", .obj 1, .fn 1⟩),
    ("broken.ts", .ok ⟨.undefined, .obj 2, .fn 2⟩)]⟩

/-- A single valid tool file. -/
def fsHello : FileSys :=
  ⟨[("hello.ts", .ok ⟨.str "hi", .obj 7, .fn 7⟩)]⟩

/-- A registry state whose cache is valid and holds one tool. -/
def hitState : ToolsState :=
  { toolCache := [("hello", ⟨"hello", "d", .obj 0, .fn 0⟩)],
    toolPathMap := [], cacheValid := true }

/-- Two files in different directories, both valid units, parameterized by
paths, descriptions and identities. -/
def dupFS (p1 p2 d1 d2 : String) (i1 i2 f1 f2 : Nat) : FileSys :=
  ⟨[(p1, .ok ⟨.str d1, .obj i1, .fn f1⟩), (p2, .ok ⟨.str d2, .obj i2, .fn f2⟩)]⟩

/-- The ToolDefinition produced by loading fsHello. -/
def helloTool : ToolDefinition :=
  ⟨"hello", buildDescription "hi" "hello.ts", .obj 7, .fn 7⟩

/-- The registry state after loadTool on fsHello from the initial state. -/
def helloState : ToolsState :=
  ⟨[("hello", helloTool)], [("hello", "hello.ts")], false⟩

/-! Theorems for the claims. -/

/-- Claim C1: a loadTools scan in flight when a matching filesystem event
arrives must not publish its pre-event results as a valid cache. The code
violates this: running the schedule scanStart, fsChange, scanFinish from the
initial state, the completing loadTools sets cacheValid to true (Tools.ts
line 71 runs unconditionally after the awaits) and returns the generation 0
snapshot even though the disk moved to generation 1 and onFileChange set the
flag to false before the call returned. -/
theorem loadTools_race_publishes_stale_snapshot :
    (raceRun [RaceEv.scanStart, RaceEv.fsChange, RaceEv.scanFinish] raceInit).cacheValid
      = true ∧
    (raceRun [RaceEv.scanStart, RaceEv.fsChange, RaceEv.scanFinish] raceInit).returnedGen
      = some 0 ∧
    (raceRun [RaceEv.scanStart, RaceEv.fsChange, RaceEv.scanFinish] raceInit).diskGen
      = 1 := by
  decide

/-- Claim C2: whenever the valid flag is true and the cache is non-empty,
loadTools returns exactly the cached definitions with zero loader
invocations and an unchanged state, and an immediately repeated loadTools
returns the same values, again with zero loader invocations. -/
theorem loadTools_cacheValid_serves_cache (fsys : FileSys) (s : ToolsState)
    (hv : s.cacheValid = true) (hne : s.toolCache ≠ []) :
    loadTools fsys s = (mapValues s.toolCache, s, 0) ∧
    loadTools fsys (loadTools fsys s).2.1 = (mapValues s.toolCache, s, 0) := by
  have h : loadTools fsys s = (mapValues s.toolCache, s, 0) := by
    unfold loadTools
    rw [if_pos ⟨hv, hne⟩]
  refine ⟨h, ?_⟩
  rw [h]
  exact h

/-- Witness for claim C2 at a concrete valid non-empty cache. -/
theorem loadTools_cacheValid_serves_cache_witness :
    hitState.cacheValid = true ∧ hitState.toolCache ≠ [] ∧
    (loadTools ⟨[]⟩ hitState = (mapValues hitState.toolCache, hitState, 0) ∧
     loadTools ⟨[]⟩ (loadTools ⟨[]⟩ hitState).2.1
       = (mapValues hitState.toolCache, hitState, 0)) :=
  ⟨rfl, by decide,
   loadTools_cacheValid_serves_cache ⟨[]⟩ hitState rfl (by decide)⟩

/-- Claim C6: the code comment promises that the timestamp key always gets a
fresh module, but two dynamicImport calls for the same path within the same
Date.now() millisecond build the identical import key, so the second call is
served the previously loaded in-memory instance instead of the edited
on-disk content; only a call in a later millisecond re-executes the file. -/
theorem dynamicImport_same_millisecond_serves_stale :
    (dynamicImport (dynamicImport [] ⟨.str "v1", .obj 1, .fn 1⟩ "tool.ts" 5).2
        ⟨.str "v2", .obj 2, .fn 2⟩ "tool.ts" 5).1 = ⟨.str "v1", .obj 1, .fn 1⟩ ∧
    (⟨.str "v1", .obj 1, .fn 1⟩ : ModuleExports) ≠ ⟨.str "v2", .obj 2, .fn 2⟩ ∧
    (dynamicImport (dynamicImport [] ⟨.str "v1", .obj 1, .fn 1⟩ "tool.ts" 5).2
        ⟨.str "v2", .obj 2, .fn 2⟩ "tool.ts" 6).1 = ⟨.str "v2", .obj 2, .fn 2⟩ := by
  decide

/-- Counterexample to claim C7: a subscriber that throws is not reported and
swallowed by onFileChange; for a matching filename the thrown failure is
the outcome of the watcher callback itself. -/
theorem onFileChange_propagates_subscriber_throw :
    (onFileChange (fun _ => true) (some (fun _ => Except.error "boom")) true "a.ts").2
      = Except.error "boom" ∧
    (Except.error "boom" ≠ (Except.ok () : Except String Unit)) := by
  exact ⟨rfl, by decide⟩

/-- Claim C7 as amended: for a filename that passes the glob filter, the
cache is invalidated and the registered subscriber is invoked without a
surrounding try-catch, so the outcome of onFileChange is exactly the outcome
of the subscriber; in particular a thrown subscriber failure propagates back
to the watcher callback rather than being swallowed. -/
theorem onFileChange_outcome_is_subscriber_outcome
    (globMatch : String → Bool) (cb : Unit → Except String Unit)
    (cv : Bool) (fname : String) (h : globMatch fname = true) :
    onFileChange globMatch (some cb) cv fname = (false, cb ()) := by
  simp [onFileChange, h]

/-- Witness for the amended claim C7 at a concrete throwing subscriber. -/
theorem onFileChange_outcome_is_subscriber_outcome_witness :
    ((fun _ => true) : String → Bool) "a.ts" = true ∧
    onFileChange (fun _ => true) (some (fun _ => Except.error "boom")) true "a.ts"
      = (false, Except.error "boom") :=
  ⟨rfl, onFileChange_outcome_is_subscriber_outcome (fun _ => true)
    (fun _ => Except.error "boom") true "a.ts" rfl⟩

/-- Counterexample to claim C8: startWatching is not idempotent. A second
startWatching leaves two active watchers delivering duplicate events, and
because stopWatching closes only the handle stored by the latest start,
events can still fire after stopWatching returns. -/
theorem startWatching_not_idempotent :
    startWatching (startWatching initWatch) ≠ startWatching initWatch ∧
    (startWatching (startWatching initWatch)).active.length = 2 ∧
    eventsCanFire (stopWatching (startWatching (startWatching initWatch))) = true := by
  decide

/-- Claim C8 as amended: stopWatching is idempotent from every state, but
startWatching is not: a second call adds a further active watcher instead of
leaving the state as after one call. After a single startWatching from the
initial state, stopWatching leaves no active watcher, while after a double
start the leaked first watcher keeps firing even after stopWatching. -/
theorem watch_lifecycle_amended :
    (∀ s, stopWatching (stopWatching s) = stopWatching s) ∧
    (∀ s, (startWatching (startWatching s)).active.length = s.active.length + 2) ∧
    (stopWatching (startWatching initWatch)).active = [] ∧
    eventsCanFire (stopWatching (startWatching (startWatching initWatch))) = true := by
  refine ⟨?_, ?_, by decide, by decide⟩
  · intro s
    cases s with
    | mk w n a => cases w <;> rfl
  · intro s
    simp [startWatching]

/-- The settle-and-push loop of the always-rescan loadTools equals a
filterMap that keeps the fulfilled outcomes. -/
theorem settle_foldl_eq_filterMap (l : List (Except LoadErr ToolDefinition))
    (acc : List ToolDefinition) :
    l.foldl settleStep acc = acc ++ l.filterMap Except.toOption := by
  induction l generalizing acc with
  | nil => simp
  | cons r rs ih =>
    cases r with
    | ok t =>
      simp [List.foldl_cons, ih, settleStep, Except.toOption, List.filterMap_cons]
    | error e =>
      simp [List.foldl_cons, ih, settleStep, Except.toOption, List.filterMap_cons]

/-- Claim C3: a loadTools scan never fails wholesale because of one bad
file. The returned list is exactly the per-file load successes: each failing
file is dropped and each sibling that loads successfully is included, and
the same holds for the always-rescan variant. -/
theorem loadTools_tolerates_per_file_failure (fsys : FileSys) (s : ToolsState)
    (h : ¬(s.cacheValid = true ∧ s.toolCache ≠ [])) :
    (loadTools fsys s).1
      = (resolveToolFiles fsys).filterMap
          (fun p => (loadToolFromFilePure fsys p).toOption) ∧
    (∀ p ∈ resolveToolFiles fsys, ∀ t, loadToolFromFilePure fsys p = .ok t →
       t ∈ (loadTools fsys s).1) ∧
    (∀ t ∈ (loadTools fsys s).1, ∃ p ∈ resolveToolFiles fsys,
       loadToolFromFilePure fsys p = .ok t) ∧
    loadToolsRescan fsys
      = (resolveToolFiles fsys).filterMap
          (fun p => (loadToolFromFilePure fsys p).toOption) := by
  have hbranch : (loadTools fsys s).1
      = ((resolveToolFiles fsys).map
          (fun p => (loadToolFromFilePure fsys p).toOption)).filterMap id := by
    unfold loadTools
    rw [if_neg h]
  have hmain : (loadTools fsys s).1
      = (resolveToolFiles fsys).filterMap
          (fun p => (loadToolFromFilePure fsys p).toOption) := by
    rw [hbranch, List.filterMap_map]
    rfl
  refine ⟨hmain, ?_, ?_, ?_⟩
  · intro p hp t ht
    rw [hmain]
    refine List.mem_filterMap.mpr ⟨p, hp, ?_⟩
    rw [ht]
    rfl
  · intro t ht
    rw [hmain] at ht
    rcases List.mem_filterMap.mp ht with ⟨p, hp, hpt⟩
    refine ⟨p, hp, ?_⟩
    cases hload : loadToolFromFilePure fsys p with
    | ok t0 =>
      rw [hload] at hpt
      simp [Except.toOption] at hpt
      rw [hpt]
    | error e =>
      rw [hload] at hpt
      simp [Except.toOption] at hpt
  · unfold loadToolsRescan
    rw [settle_foldl_eq_filterMap, List.filterMap_map, List.nil_append]
    rfl

/-- Witness for claim C3 at a directory holding one valid and one invalid
file. -/
theorem loadTools_tolerates_per_file_failure_witness :
    ¬(initState.cacheValid = true ∧ initState.toolCache ≠ []) ∧
    (loadTools fsGoodBad initState).1
      = (resolveToolFiles fsGoodBad).filterMap
          (fun p => (loadToolFromFilePure fsGoodBad p).toOption) ∧
    loadToolsRescan fsGoodBad
      = (resolveToolFiles fsGoodBad).filterMap
          (fun p => (loadToolFromFilePure fsGoodBad p).toOption) :=
  ⟨by decide,
   (loadTools_tolerates_per_file_failure fsGoodBad initState (by decide)).1,
   (loadTools_tolerates_per_file_failure fsGoodBad initState (by decide)).2.2.2⟩

/-- The description check of loadToolFromFile passes exactly for nonempty
strings: JavaScript truthiness also rejects the empty string. -/
theorem desc_check_iff (v : JSValue) :
    (truthy v && (typeOf v == "string")) = true
      ↔ (isStringVal v = true ∧ v ≠ .str "") := by
  cases v <;> simp [truthy, typeOf, isStringVal]

/-- The inputSchema check of loadToolFromFile passes exactly for
object-shaped values: null has typeof object but is falsy. -/
theorem schema_check_iff (v : JSValue) :
    (truthy v && (typeOf v == "object")) = true ↔ isObjectShaped v = true := by
  cases v <;> simp [truthy, typeOf, isObjectShaped]

/-- The default-export check of loadToolFromFile passes exactly for callable
values. -/
theorem exec_check_iff (v : JSValue) :
    (truthy v && (typeOf v == "function")) = true ↔ isCallable v = true := by
  cases v <;> simp [truthy, typeOf, isCallable]

/-- Counterexample to claim C4: a module exporting an empty description
string, a valid schema object and a valid default function is not in the
failure set described by the claim, yet the loader rejects it, because the
truthiness test of Tools.ts line 152 also fails on the empty string. -/
theorem loadToolFromFile_rejects_empty_description :
    specInvalidUnit fsEmptyDesc "empty.ts" = false ∧
    (loadToolFromFilePure fsEmptyDesc "empty.ts").isOk = false := by
  decide

/-- Claim C4 as amended: the load succeeds exactly when the module imports
and its description is a nonempty string, its inputSchema is object-shaped,
and its default export is callable; equivalently it fails exactly when
the import fails or the description is missing, not a string or the empty
string, or the inputSchema is missing or not object-shaped, or the default
export is missing or not callable. -/
theorem loadToolFromFile_success_iff (fsys : FileSys) (p : String) :
    (loadToolFromFilePure fsys p).isOk = true ↔
      ∃ mod, importMod fsys p = .ok mod ∧
        ((isStringVal mod.description = true ∧ mod.description ≠ .str "") ∧
         isObjectShaped mod.inputSchema = true ∧
         isCallable mod.defaultExport = true) := by
  unfold loadToolFromFilePure
  cases himp : importMod fsys p with
  | error e => simp [Except.isOk, Except.toBool]
  | ok mod =>
    simp only [Except.ok.injEq, exists_eq_left']
    rw [← desc_check_iff, ← schema_check_iff, ← exec_check_iff]
    by_cases a1 : truthy mod.description = true <;>
      by_cases a2 : typeOf mod.description = "string" <;>
        by_cases a3 : truthy mod.inputSchema = true <;>
          by_cases a4 : typeOf mod.inputSchema = "object" <;>
            by_cases a5 : truthy mod.defaultExport = true <;>
              by_cases a6 : typeOf mod.defaultExport = "function" <;>
                simp_all [Except.isOk, Except.toBool]

/-- Looking up a key other than the one replaced in place leaves the result
unchanged. -/
theorem mapGet_replace {α : Type} (m : List (String × α)) (j k : String) (v : α)
    (h : k ≠ j) :
    mapGet (m.map (fun e => if e.1 == j then (j, v) else e)) k = mapGet m k := by
  induction m with
  | nil => rfl
  | cons e es ih =>
    by_cases hej : e.1 = j
    · have h1 : (e.1 == j) = true := beq_iff_eq.mpr hej
      have h2 : (j == k) = false := beq_eq_false_iff_ne.mpr (Ne.symm h)
      have h3 : (e.1 == k) = false := by rw [hej]; exact h2
      simpa [mapGet, List.find?, h1, h2, h3] using ih
    · have h1 : (e.1 == j) = false := beq_eq_false_iff_ne.mpr hej
      by_cases hek : e.1 = k
      · have h2 : (e.1 == k) = true := beq_iff_eq.mpr hek
        simp [mapGet, List.find?, h1, h2]
      · have h2 : (e.1 == k) = false := beq_eq_false_iff_ne.mpr hek
        simpa [mapGet, List.find?, h1, h2] using ih

/-- Looking up a key other than the one appended leaves the result
unchanged. -/
theorem mapGet_append_ne {α : Type} (m : List (String × α)) (j k : String) (v : α)
    (h : k ≠ j) :
    mapGet (m ++ [(j, v)]) k = mapGet m k := by
  induction m with
  | nil =>
    have h2 : (j == k) = false := beq_eq_false_iff_ne.mpr (Ne.symm h)
    simp [mapGet, List.find?, h2]
  | cons e es ih =>
    by_cases hek : e.1 = k
    · have h2 : (e.1 == k) = true := beq_iff_eq.mpr hek
      simp [mapGet, List.find?, h2]
    · have h2 : (e.1 == k) = false := beq_eq_false_iff_ne.mpr hek
      simpa [mapGet, List.find?, h2] using ih

/-- The frame property of Map.set: setting one key leaves every other lookup
unchanged. -/
theorem mapGet_mapSet_ne {α : Type} (m : List (String × α)) (j k : String) (v : α)
    (h : k ≠ j) :
    mapGet (mapSet m j v) k = mapGet m k := by
  unfold mapSet
  by_cases hp : (m.find? (fun e => e.1 == j)).isSome = true
  · rw [if_pos hp]
    exact mapGet_replace m j k v h
  · rw [if_neg hp]
    exact mapGet_append_ne m j k v h

/-- importMod never produces the not-found error of loadTool: its failures
are import failures. -/
theorem importMod_notFound_free (fsys : FileSys) (p n : String) :
    importMod fsys p ≠ .error (.notFound n) := by
  unfold importMod
  cases mapGet fsys.entries p with
  | none => simp
  | some r => cases r <;> simp

/-- The unit loader never produces the not-found error of loadTool: its
failures are import failures or invalid-unit errors. -/
theorem loadToolFromFilePure_ne_notFound (fsys : FileSys) (p n : String) :
    loadToolFromFilePure fsys p ≠ .error (.notFound n) := by
  unfold loadToolFromFilePure
  split
  · rename_i e heq
    intro hc
    injection hc with he
    rw [he] at heq
    exact importMod_notFound_free fsys p n heq
  · rename_i mod heq
    split
    · simp
    · split
      · simp
      · split <;> simp

/-- A successful load names the tool by the file base name. -/
theorem loadToolFromFilePure_name (fsys : FileSys) (p : String)
    (t : ToolDefinition) (h : loadToolFromFilePure fsys p = .ok t) :
    t.name = baseName p := by
  unfold loadToolFromFilePure at h
  split at h
  · cases h
  · split at h
    · cases h
    · split at h
      · cases h
      · split at h
        · cases h
        · cases h
          rfl

/-- Counterexample to claim C5: the name bad resolves to the existing
matching file bad.ts, yet loadTool fails, because the resolved file is an
invalid unit and loadToolFromFile throws past the name resolution. -/
theorem loadTool_fails_on_resolvable_invalid_file :
    (resolveToolFiles fsBad).find? (fun f => baseName f == "bad") = some "bad.ts" ∧
    (loadTool fsBad initState "bad").1
      = .error (.invalidUnit "Tool file bad.ts must export a description string") := by
  decide

/-- Claim C5 as amended: from a state with an invalid cache and an empty
path index, loadTool fails with the not-found error referencing the
requested name exactly when no matching file has that base name; when some
file does match, the outcome of loadTool is the outcome of loading that
file, which can still fail for a file that is not a valid unit. -/
theorem loadTool_notFound_iff_unresolvable (fsys : FileSys) (s : ToolsState)
    (name : String) (hv : s.cacheValid = false) (hpm : s.toolPathMap = []) :
    ((loadTool fsys s name).1 = .error (.notFound name) ↔
      (resolveToolFiles fsys).find? (fun f => baseName f == name) = none) ∧
    (∀ fp, (resolveToolFiles fsys).find? (fun f => baseName f == name) = some fp →
      (loadTool fsys s name).1 = loadToolFromFilePure fsys fp) := by
  have hred : loadTool fsys s name = loadToolUncached fsys s name := by
    unfold loadTool
    rw [hv]
  have hget : mapGet s.toolPathMap name = none := by
    rw [hpm]
    rfl
  cases hf : (resolveToolFiles fsys).find? (fun f => baseName f == name) with
  | none =>
    have hval : (loadTool fsys s name).1 = .error (.notFound name) := by
      rw [hred]
      unfold loadToolUncached
      simp only [hget, hf]
    constructor
    · simp [hval]
    · intro fp hfp
      cases hfp
  | some fp =>
    have hval : (loadTool fsys s name).1 = loadToolFromFilePure fsys fp := by
      rw [hred]
      unfold loadToolUncached
      simp only [hget, hf]
      unfold loadToolFound loadToolFromFile
      cases hpure : loadToolFromFilePure fsys fp <;> simp [hpure]
    constructor
    · constructor
      · intro h
        rw [hval] at h
        exact absurd h (loadToolFromFilePure_ne_notFound fsys fp name)
      · intro h
        cases h
    · intro fp2 hfp2
      cases hfp2
      exact hval

/-- Witness for the amended claim C5 at a directory holding one valid file:
the not-found outcome is equivalent to the absence of a matching file. -/
theorem loadTool_notFound_iff_unresolvable_witness :
    initState.cacheValid = false ∧ initState.toolPathMap = [] ∧
    ((loadTool fsHello initState "hello").1 = .error (.notFound "hello") ↔
      (resolveToolFiles fsHello).find? (fun f => baseName f == "hello") = none) :=
  ⟨rfl, rfl,
   (loadTool_notFound_iff_unresolvable fsHello initState "hello" rfl rfl).1⟩

/-- A scan with a valid non-empty cache is served from the cache with the
state unchanged and no loader invocation. -/
theorem loadTools_hit (fsys : FileSys) (s : ToolsState)
    (hv : s.cacheValid = true) (hne : s.toolCache ≠ []) :
    loadTools fsys s = (mapValues s.toolCache, s, 0) := by
  unfold loadTools
  rw [if_pos ⟨hv, hne⟩]

/-- Claim C9: with two matching files sharing a base name, a rescanning
loadTools returns one ToolDefinition per file, the two entries carrying the
same name, while the cache keeps only the later-loaded entry for that name;
the immediately following cache-valid loadTools returns only that entry, a
strictly shorter list, so two consecutive calls with no filesystem change
return different results. -/
theorem loadTools_duplicate_basenames
    (p1 p2 d1 d2 : String) (i1 i2 f1 f2 : Nat) (s : ToolsState)
    (hne : p1 ≠ p2) (hbase : baseName p1 = baseName p2)
    (hd1 : d1 ≠ "") (hd2 : d2 ≠ "") (hinv : s.cacheValid = false) :
    (loadTools (dupFS p1 p2 d1 d2 i1 i2 f1 f2) s).1
      = [⟨baseName p1, buildDescription d1 p1, .obj i1, .fn f1⟩,
         ⟨baseName p2, buildDescription d2 p2, .obj i2, .fn f2⟩] ∧
    (loadTools (dupFS p1 p2 d1 d2 i1 i2 f1 f2) s).2.1.toolCache
      = [(baseName p2,
          ⟨baseName p2, buildDescription d2 p2, .obj i2, .fn f2⟩)] ∧
    (loadTools (dupFS p1 p2 d1 d2 i1 i2 f1 f2)
        (loadTools (dupFS p1 p2 d1 d2 i1 i2 f1 f2) s).2.1).1
      = [⟨baseName p2, buildDescription d2 p2, .obj i2, .fn f2⟩] ∧
    (loadTools (dupFS p1 p2 d1 d2 i1 i2 f1 f2)
        (loadTools (dupFS p1 p2 d1 d2 i1 i2 f1 f2) s).2.1).1.length
      < (loadTools (dupFS p1 p2 d1 d2 i1 i2 f1 f2) s).1.length := by
  have hguard : ¬(s.cacheValid = true ∧ s.toolCache ≠ []) := by
    simp [hinv]
  have hb12 : (p1 == p2) = false := beq_eq_false_iff_ne.mpr hne
  have hd1b : (d1 != "") = true := bne_iff_ne.mpr hd1
  have hd2b : (d2 != "") = true := bne_iff_ne.mpr hd2
  have h1 : loadToolFromFilePure (dupFS p1 p2 d1 d2 i1 i2 f1 f2) p1
      = .ok ⟨baseName p1, buildDescription d1 p1, .obj i1, .fn f1⟩ := by
    simp [loadToolFromFilePure, importMod, dupFS, mapGet, List.find?, truthy,
          typeOf, jsAsString, hd1b]
  have h2 : loadToolFromFilePure (dupFS p1 p2 d1 d2 i1 i2 f1 f2) p2
      = .ok ⟨baseName p2, buildDescription d2 p2, .obj i2, .fn f2⟩ := by
    simp [loadToolFromFilePure, importMod, dupFS, mapGet, List.find?, truthy,
          typeOf, jsAsString, hb12, hd2b]
  have hfiles : resolveToolFiles (dupFS p1 p2 d1 d2 i1 i2 f1 f2) = [p1, p2] := by
    simp [resolveToolFiles, dupFS]
  have hc1 : (loadTools (dupFS p1 p2 d1 d2 i1 i2 f1 f2) s).1
      = [⟨baseName p1, buildDescription d1 p1, .obj i1, .fn f1⟩,
         ⟨baseName p2, buildDescription d2 p2, .obj i2, .fn f2⟩] := by
    unfold loadTools
    rw [if_neg hguard]
    simp [hfiles, h1, h2, Except.toOption, List.filterMap_cons]
  have hc2 : (loadTools (dupFS p1 p2 d1 d2 i1 i2 f1 f2) s).2.1.toolCache
      = [(baseName p2,
          ⟨baseName p2, buildDescription d2 p2, .obj i2, .fn f2⟩)] := by
    unfold loadTools
    rw [if_neg hguard]
    simp [hfiles, h1, h2, Except.toOption, List.filterMap_cons,
          mapSet, mapGet, List.find?, hbase]
  have hvalid : (loadTools (dupFS p1 p2 d1 d2 i1 i2 f1 f2) s).2.1.cacheValid = true := by
    unfold loadTools
    rw [if_neg hguard]
  have hne2 : (loadTools (dupFS p1 p2 d1 d2 i1 i2 f1 f2) s).2.1.toolCache ≠ [] := by
    rw [hc2]
    simp
  have hhit := loadTools_hit (dupFS p1 p2 d1 d2 i1 i2 f1 f2)
    ((loadTools (dupFS p1 p2 d1 d2 i1 i2 f1 f2) s).2.1) hvalid hne2
  have hc3 : (loadTools (dupFS p1 p2 d1 d2 i1 i2 f1 f2)
      (loadTools (dupFS p1 p2 d1 d2 i1 i2 f1 f2) s).2.1).1
      = [⟨baseName p2, buildDescription d2 p2, .obj i2, .fn f2⟩] := by
    rw [hhit]
    show mapValues ((loadTools (dupFS p1 p2 d1 d2 i1 i2 f1 f2) s).2.1.toolCache)
      = [⟨baseName p2, buildDescription d2 p2, .obj i2, .fn f2⟩]
    rw [hc2]
    simp [mapValues]
  refine ⟨hc1, hc2, hc3, ?_⟩
  rw [hc3, hc1]
  simp

/-- Witness for claim C9 at two concrete valid files named dup in different
directories. -/
theorem loadTools_duplicate_basenames_witness :
    "a/dup.ts" ≠ "b/dup.ts" ∧ baseName "a/dup.ts" = baseName "b/dup.ts" ∧
    (loadTools (dupFS "a/dup.ts" "b/dup.ts" "one" "two" 1 2 3 4) initState).1
      = [⟨baseName "a/dup.ts", buildDescription "one" "a/dup.ts", .obj 1, .fn 3⟩,
         ⟨baseName "b/dup.ts", buildDescription "two" "b/dup.ts", .obj 2, .fn 4⟩] ∧
    (loadTools (dupFS "a/dup.ts" "b/dup.ts" "one" "two" 1 2 3 4)
        (loadTools (dupFS "a/dup.ts" "b/dup.ts" "one" "two" 1 2 3 4) initState).2.1).1.length
      < (loadTools (dupFS "a/dup.ts" "b/dup.ts" "one" "two" 1 2 3 4) initState).1.length :=
  ⟨by decide, by decide,
   (loadTools_duplicate_basenames "a/dup.ts" "b/dup.ts" "one" "two" 1 2 3 4
     initState (by decide) (by decide) (by decide) (by decide) rfl).1,
   (loadTools_duplicate_basenames "a/dup.ts" "b/dup.ts" "one" "two" 1 2 3 4
     initState (by decide) (by decide) (by decide) (by decide) rfl).2.2.2⟩

/-- Frame property of the shared tail of loadTool: a successful load writes
only the cache entry for the requested name and the path-index entry for the
loaded base name, and leaves the validity flag alone. -/
theorem loadToolFound_frame (fsys : FileSys) (s : ToolsState) (name fp : String)
    (t : ToolDefinition) (s' : ToolsState) (hbn : baseName fp = name)
    (h : loadToolFound fsys s name fp = (.ok t, s')) :
    s'.cacheValid = s.cacheValid ∧
    (∀ k, k ≠ name → mapGet s'.toolCache k = mapGet s.toolCache k) ∧
    (∀ k, k ≠ name → mapGet s'.toolPathMap k = mapGet s.toolPathMap k) := by
  unfold loadToolFound loadToolFromFile at h
  cases hpure : loadToolFromFilePure fsys fp with
  | error e =>
    simp only [hpure] at h
    simp at h
  | ok t0 =>
    simp only [hpure] at h
    have hname : t0.name = baseName fp := loadToolFromFilePure_name fsys fp t0 hpure
    rw [Prod.mk.injEq] at h
    obtain ⟨h1, h2⟩ := h
    subst h2
    refine ⟨rfl, ?_, ?_⟩
    · intro k hk
      exact mapGet_mapSet_ne s.toolCache name k t0 hk
    · intro k hk
      show mapGet (mapSet s.toolPathMap t0.name fp) k = mapGet s.toolPathMap k
      rw [hname, hbn]
      exact mapGet_mapSet_ne s.toolPathMap name k fp hk

/-- Frame property of loadTool below its cache-hit check, under the
invariant that every path-index entry maps a name to a path with that base
name. -/
theorem loadToolUncached_frame (fsys : FileSys) (s : ToolsState) (name : String)
    (hcons : ∀ k p, mapGet s.toolPathMap k = some p → baseName p = k)
    (t : ToolDefinition) (s' : ToolsState)
    (h : loadToolUncached fsys s name = (.ok t, s')) :
    s'.cacheValid = s.cacheValid ∧
    (∀ k, k ≠ name → mapGet s'.toolCache k = mapGet s.toolCache k) ∧
    (∀ k, k ≠ name → mapGet s'.toolPathMap k = mapGet s.toolPathMap k) := by
  unfold loadToolUncached at h
  cases hpm : mapGet s.toolPathMap name with
  | some fp =>
    simp only [hpm] at h
    exact loadToolFound_frame fsys s name fp t s' (hcons name fp hpm) h
  | none =>
    simp only [hpm] at h
    cases hf : (resolveToolFiles fsys).find? (fun f => baseName f == name) with
    | none =>
      simp only [hf] at h
      simp at h
    | some fp =>
      simp only [hf] at h
      have hpred := List.find?_some hf
      have hbn : baseName fp = name := beq_iff_eq.mp hpred
      have hff := loadToolFound_frame fsys
        { s with toolPathMap := mapSet s.toolPathMap name fp } name fp t s' hbn h
      refine ⟨hff.1, ?_, ?_⟩
      · intro k hk
        exact hff.2.1 k hk
      · intro k hk
        have hstep := hff.2.2 k hk
        rw [hstep]
        exact mapGet_mapSet_ne s.toolPathMap name k fp hk

/-- Claim C10: a successful loadTool changes only the cache entry and
path-index entry for the requested name, leaves every other entry and the
validity flag unchanged, and in particular never sets the flag to true, so a
later loadTools on a still-invalid cache performs a full rescan, invoking
the loader once per resolved file. The path-index consistency hypothesis
holds in every reachable state because both writers key entries by the base
name of the stored path. -/
theorem loadTool_frame (fsys : FileSys) (s : ToolsState) (name : String)
    (hcons : ∀ k p, mapGet s.toolPathMap k = some p → baseName p = k)
    (t : ToolDefinition) (s' : ToolsState)
    (h : loadTool fsys s name = (.ok t, s')) :
    s'.cacheValid = s.cacheValid ∧
    (∀ k, k ≠ name → mapGet s'.toolCache k = mapGet s.toolCache k) ∧
    (∀ k, k ≠ name → mapGet s'.toolPathMap k = mapGet s.toolPathMap k) ∧
    (∀ fsys2 : FileSys, s.cacheValid = false →
      (loadTools fsys2 s').2.2 = (resolveToolFiles fsys2).length) := by
  have hmain : s'.cacheValid = s.cacheValid ∧
      (∀ k, k ≠ name → mapGet s'.toolCache k = mapGet s.toolCache k) ∧
      (∀ k, k ≠ name → mapGet s'.toolPathMap k = mapGet s.toolPathMap k) := by
    by_cases hv : s.cacheValid = true
    · cases hc : mapGet s.toolCache name with
      | some t0 =>
        unfold loadTool at h
        simp only [hv, hc] at h
        rw [Prod.mk.injEq] at h
        obtain ⟨h1, h2⟩ := h
        subst h2
        exact ⟨rfl, fun k _ => rfl, fun k _ => rfl⟩
      | none =>
        unfold loadTool at h
        simp only [hv, hc] at h
        exact loadToolUncached_frame fsys s name hcons t s' h
    · have hv' : s.cacheValid = false := by
        cases hb : s.cacheValid
        · rfl
        · exact absurd hb hv
      unfold loadTool at h
      simp only [hv'] at h
      exact loadToolUncached_frame fsys s name hcons t s' h
  refine ⟨hmain.1, hmain.2.1, hmain.2.2, ?_⟩
  intro fsys2 hf
  have hng : ¬(s'.cacheValid = true ∧ s'.toolCache ≠ []) := by
    rw [hmain.1, hf]
    simp
  unfold loadTools
  rw [if_neg hng]

set_option maxRecDepth 8192 in
/-- Witness for claim C10 at a single valid file loaded from the initial
state: the load succeeds and the validity flag is unchanged. -/
theorem loadTool_frame_witness :
    loadTool fsHello initState "hello" = (.ok helloTool, helloState) ∧
    helloState.cacheValid = initState.cacheValid :=
  ⟨by decide,
   (loadTool_frame fsHello initState "hello"
      (fun k p hp => by simp [initState, mapGet, List.find?] at hp)
      helloTool helloState (by decide)).1⟩
